import Mathlib

/-!
Verification of the Marzban-node node agent (`src/singbox.py`,
`src/rpyc_service.py`) against its natural-language specification.

The Python code is shallowly embedded: objects become structures, methods
become pure state-transformer functions, Python exceptions become an
explicit `Option Err` / `Except Err` outcome, and externally observable
process actions (terminating the subprocess, launching a new one with a
given configuration on its stdin) are recorded in an event trace, so that
"stops first, then launches" is provable as a statement about the trace.

Conventions of the embedding:
* `collections.deque(maxlen=100)` becomes a `List String` kept at length
  at most 100 by `dequeAppend` (append at the back, evict at the front).
* Python `dict` registries keyed by `id(obj)` become association lists
  keyed by a fresh `Nat` drawn from a counter.
* The background log-reader thread of `SingBoxCore.__capture_process_logs`
  is embedded by its per-line effect `appendLine` (strip/readline and the
  DEBUG-vs-non-DEBUG branch differ only in an extra `logger.debug` call,
  which has no effect on any buffer).
* `logger` calls, `atexit`, thread spawning for hooks, and real time
  (timeouts) have no observable effect on the modelled state and are not
  represented; hook registries themselves are kept as opaque handle lists.
* The Xray twin (`xray.py`, not part of the analysed sources) is, per the
  specification, a structurally identical supervisor; where the service
  layer touches it (`on_disconnect`, `fetch_logs`) it is modelled by the
  same supervisor state type.
-/

namespace MarzbanNode

/-- Python exceptions that the modelled code can raise.
`configInvalid` stands for `json.JSONDecodeError` raised by `json.loads`
(the spec's `ConfigInvalid` condition); `runtimeError` for Python
`RuntimeError`; `attributeError` for `AttributeError`; `typeError` for
`TypeError`. -/
inductive Err where
  | configInvalid
  | runtimeError (msg : String)
  | attributeError
  | typeError
deriving DecidableEq, Repr

/-- One entry of the `inbounds` array of a Sing-box configuration document:
an optional `tag` field (`none` = the entry has no `"tag"` key, so
`inbound.get('tag')` yields `None`) plus the rest of the entry, opaque to
the agent. -/
structure Inbound where
  tag : Option String
  payload : String
deriving DecidableEq, Repr

/-- A parsed JSON configuration document, restricted to the keys the agent
inspects: the `inbounds` array (`none` = the key is absent, so
`self.get('inbounds', [])` yields `[]`), the `log.level` string (`none` =
`config.get('log', \x7b\x7d).get('level')` yields `None`), and the rest of
the document, opaque. -/
structure ConfigDoc where
  inbounds : Option (List Inbound)
  logLevel : Option String
  rest : String
deriving DecidableEq, Repr

/-- Raw configuration bytes as supplied by the controller: either they
parse to a document or they are malformed JSON. -/
inductive RawConfig where
  | wellFormed (doc : ConfigDoc)
  | malformed (text : String)
deriving DecidableEq, Repr

/-- Interface model of the standard library's `json.loads`: a well-formed
input yields its document, a malformed one raises `json.JSONDecodeError`. -/
def json_loads : RawConfig → Except Err ConfigDoc
  | .wellFormed d => .ok d
  | .malformed _ => .error .configInvalid

/-- Modelled from the spec: `SSL_CERT_FILE` lives in `config.py`, which is
not among the analysed sources; the spec only says local trust material is
stamped onto the document. The concrete value is immaterial. -/
def SSL_CERT_FILE : String := "/var/lib/marzban-node/ssl_cert.pem"

/-- Modelled from the spec: `SSL_KEY_FILE`, as for `SSL_CERT_FILE`. -/
def SSL_KEY_FILE : String := "/var/lib/marzban-node/ssl_key.pem"

/-- `SingBoxConfig`: the parsed document plus the attributes stamped on in
`SingBoxConfig.__init__` (`ssl_cert`, `ssl_key`, `peer_ip`). -/
structure SingBoxConfig where
  doc : ConfigDoc
  ssl_cert : String
  ssl_key : String
  peer_ip : String
deriving DecidableEq, Repr

/-- `tag in SINGBOX_INBOUNDS` for `tag = inbound.get('tag')`: a missing
`tag` key gives Python `None`, which is never a member of a list of
strings. -/
def tagAllowed (allow : List String) : Option String → Bool
  | some t => allow.contains t
  | none => false

/-- The loop body of `SingBoxConfig._apply_filters`: start from an empty
`filtered_inbounds` list and append each inbound whose tag is in the
allow-list. -/
def filterInbounds (allow : List String) (inbounds : List Inbound) : List Inbound :=
  inbounds.foldl (fun acc ib => if tagAllowed allow ib.tag then acc ++ [ib] else acc) []

/-- `SingBoxConfig._apply_filters`. `SINGBOX_INBOUNDS` (from `config.py`)
is passed in as the `allow` parameter; Python's `if not SINGBOX_INBOUNDS:
return` maps an empty (or absent, i.e. empty) allow-list to the identity.
Otherwise the `inbounds` key is overwritten with the filtered list built
from `self.get('inbounds', [])`. -/
def applyFilters (allow : List String) (d : ConfigDoc) : ConfigDoc :=
  if allow.isEmpty then d
  else { d with inbounds := some (filterInbounds allow (d.inbounds.getD [])) }

/-- `SingBoxConfig.__init__(config, peer_ip)`: `json.loads` the raw bytes
(propagating a decode error), stamp `ssl_cert` / `ssl_key` / `peer_ip`,
then `_apply_filters`. -/
def SingBoxConfig.init (allow : List String) (raw : RawConfig) (peer_ip : String) :
    Except Err SingBoxConfig :=
  match json_loads raw with
  | .error e => .error e
  | .ok d =>
      .ok { doc := applyFilters allow d
            ssl_cert := SSL_CERT_FILE
            ssl_key := SSL_KEY_FILE
            peer_ip := peer_ip }

/-- A running (or exited) subprocess: the configuration that was written to
its stdin at launch and whether `poll()` reports an exit status
(`exited = true` iff `poll() is not None`). -/
structure Process where
  config : SingBoxConfig
  exited : Bool
deriving DecidableEq, Repr

/-- Externally observable process actions of one supervisor. -/
inductive Ev where
  | terminated
  | launched (cfg : SingBoxConfig)
deriving DecidableEq, Repr

/-- The mutable state of a `SingBoxCore` instance: the subprocess handle,
the `restarting` re-entry guard, the capacity-100 ring `_logs_buffer`, the
registry `_temp_log_buffers` of live subscriber buffers (association list;
fresh keys are drawn from `nextBufId`, standing for Python `id(buf)`), the
cached `version` probe result, and the registered hook handles. -/
structure CoreState where
  process : Option Process
  restarting : Bool
  logs_buffer : List String
  temp_log_buffers : List (Nat × List String)
  nextBufId : Nat
  version : Option String
  on_start_funcs : List Nat
  on_stop_funcs : List Nat
deriving DecidableEq, Repr

/-- `SingBoxCore.__init__`: no process, not restarting, empty ring and
registry. The out-of-process `get_version` probe is external; its cached
result is carried opaquely (`none` here, as for a missing executable). -/
def SingBoxCore.init : CoreState :=
  { process := none
    restarting := false
    logs_buffer := []
    temp_log_buffers := []
    nextBufId := 0
    version := none
    on_start_funcs := []
    on_stop_funcs := [] }

/-- The `started` property: there is a process and `poll()` is `None`. -/
def CoreState.started (s : CoreState) : Bool :=
  match s.process with
  | none => false
  | some p => !p.exited

/-- Appending to a `deque(maxlen=cap)`: below capacity the line goes on the
back; at capacity the oldest (front) element is evicted first. -/
def dequeAppend (cap : Nat) (buf : List String) (x : String) : List String :=
  if buf.length < cap then buf ++ [x] else buf.tail ++ [x]

/-- The per-line effect of the reader loop in
`SingBoxCore.__capture_process_logs`: the stripped line is appended to the
ring `_logs_buffer` and fanned out to every registered subscriber buffer
(each a `deque(maxlen=100)`). -/
def appendLine (s : CoreState) (x : String) : CoreState :=
  { s with
    logs_buffer := dequeAppend 100 s.logs_buffer x
    temp_log_buffers := s.temp_log_buffers.map fun p => (p.1, dequeAppend 100 p.2 x) }

/-- Entering the `get_logs` context manager: build `buf` as a fresh
`deque(self._logs_buffer, maxlen=100)` snapshot and register it in
`_temp_log_buffers` under a fresh key, returning the key. -/
def get_logs_enter (s : CoreState) : CoreState × Nat :=
  ({ s with
     temp_log_buffers := (s.nextBufId, s.logs_buffer) :: s.temp_log_buffers
     nextBufId := s.nextBufId + 1 },
   s.nextBufId)

/-- Leaving the `get_logs` scope: the subscriber buffer is deleted from the
registry. -/
def get_logs_exit (s : CoreState) (bufId : Nat) : CoreState :=
  { s with temp_log_buffers := s.temp_log_buffers.filter fun p => p.1 ≠ bufId }

/-- `logs.popleft()` performed by a consumer holding subscriber buffer
`bufId` (the dispatch loop of `CoreLogsHandler.cast`): the front line of
that buffer, and only that buffer, is removed. -/
def popBuf (s : CoreState) (bufId : Nat) : CoreState :=
  { s with
    temp_log_buffers := s.temp_log_buffers.map fun p =>
      if p.1 = bufId then (p.1, p.2.tail) else p }

/-- `SingBoxCore.start(config)`: raises `RuntimeError` if already started;
otherwise upgrades a `'silent'` log level to `'warn'`, launches the
subprocess and writes the serialized config to its stdin. Hook threads and
the reader thread carry no modelled state. -/
def SingBoxCore.start (s : CoreState) (config : SingBoxConfig) :
    CoreState × List Ev × Option Err :=
  if s.started then
    (s, [], some (.runtimeError "Sing-box is started already"))
  else
    let config :=
      if config.doc.logLevel = some "silent" then
        { config with doc := { config.doc with logLevel := some "warn" } }
      else config
    ({ s with process := some { config := config, exited := false } },
     [.launched config], none)

/-- The silent-level normalization applied inside `SingBoxCore.start`,
named for use in specifications. -/
def normalizeLogLevel (config : SingBoxConfig) : SingBoxConfig :=
  if config.doc.logLevel = some "silent" then
    { config with doc := { config.doc with logLevel := some "warn" } }
  else config

/-- `SingBoxCore.stop()`: a no-op when not started; otherwise terminate the
process (the bounded wait / kill fallback is timing behaviour of the same
externally visible termination) and drop the handle. -/
def SingBoxCore.stop (s : CoreState) : CoreState × List Ev :=
  if s.started then ({ s with process := none }, [.terminated])
  else (s, [])

/-- `SingBoxCore.restart(config)`: a no-op while `restarting` is set;
otherwise set the guard, `stop()` then `start(config)`, and clear the guard
in a `finally` block, i.e. also when `start` raised. -/
def SingBoxCore.restart (s : CoreState) (config : SingBoxConfig) :
    CoreState × List Ev × Option Err :=
  if s.restarting then (s, [], none)
  else
    let s1 : CoreState := { s with restarting := true }
    let stopped := SingBoxCore.stop s1
    let started := SingBoxCore.start stopped.1 config
    ({ started.1 with restarting := false },
     stopped.2 ++ started.2.1, started.2.2)

/-- An rpyc connection as the service sees it: an identity (Python object
identity, for the `conn is self.connection` test), the address
`socket.getpeername` reports for it, whether `ping()` succeeds (`false`
stands for `ping` raising `EOFError`/`TimeoutError`), the `peer` attribute
(`none` = attribute absent, so reading it raises `AttributeError`), and
whether `close()` has been called on it. -/
structure Conn where
  cid : Nat
  addr : String
  alive : Bool
  peer : Option String
  closed : Bool
deriving DecidableEq, Repr

/-- Service-level events, tagged with the core slot they concern. -/
inductive SvcEv where
  | xray (e : Ev)
  | singbox (e : Ev)
deriving DecidableEq, Repr

/-- The state of the `XrayService` singleton: the Xray core slot, the
Sing-box core slot, and the active connection. Per the specification the
Xray core is a structurally identical supervisor, so both slots carry the
same supervisor state type. -/
structure SvcState where
  core : Option CoreState
  singbox_core : Option CoreState
  connection : Option Conn
deriving DecidableEq, Repr

/-- `XrayService.__init__`. -/
def XrayService.init : SvcState := ⟨none, none, none⟩

/-- `XrayService.on_connect(conn)`. With a connection already held: `ping`
it; on success read its `peer` attribute — if the attribute exists the
candidate is closed and the held connection kept (the warning is only
logged when the value is not `None`, but `conn.close()` runs either way);
if `ping` raised `EOFError`/`TimeoutError` or the `peer` read raised
`AttributeError`, the old session is considered lost and the candidate is
admitted, its `peer` attribute set to its `getpeername` address. Returns
the new service state and the candidate object as the caller leaves it. -/
def on_connect (svc : SvcState) (conn : Conn) : SvcState × Conn :=
  let admitted : Conn := { conn with peer := some conn.addr }
  match svc.connection with
  | some existing =>
      if existing.alive then
        match existing.peer with
        | some _ => (svc, { conn with closed := true })
        | none => ({ svc with connection := some admitted }, admitted)
      else ({ svc with connection := some admitted }, admitted)
  | none => ({ svc with connection := some admitted }, admitted)

/-- `XrayService.on_disconnect(conn)`: only if `conn is self.connection`
(object identity, modelled by `cid`) stop the Xray core and the Sing-box
core when present, then clear both slots and the connection. -/
def on_disconnect (svc : SvcState) (conn : Conn) : SvcState × List SvcEv :=
  match svc.connection with
  | some active =>
      if conn.cid = active.cid then
        let evs1 : List SvcEv :=
          match svc.core with
          | some c => (SingBoxCore.stop c).2.map .xray
          | none => []
        let evs2 : List SvcEv :=
          match svc.singbox_core with
          | some c => (SingBoxCore.stop c).2.map .singbox
          | none => []
        (⟨none, none, none⟩, evs1 ++ evs2)
      else (svc, [])
  | none => (svc, [])

/-- `self.connection.peer` as read inside `singbox_start` /
`singbox_restart`: raises `AttributeError` when there is no connection
(`None.peer`) or the connection has no `peer` attribute. -/
def connPeer (svc : SvcState) : Except Err String :=
  match svc.connection with
  | none => .error .attributeError
  | some c =>
      match c.peer with
      | none => .error .attributeError
      | some p => .ok p

/-- `XrayService.singbox_stop()`: if a core is held, `stop()` it (a
`RuntimeError` would be swallowed; the modelled `stop` raises none), then
clear the slot unconditionally. -/
def singbox_stop (svc : SvcState) : SvcState × List SvcEv :=
  match svc.singbox_core with
  | some c => ({ svc with singbox_core := none }, (SingBoxCore.stop c).2.map .singbox)
  | none => ({ svc with singbox_core := none }, [])

/-- `XrayService.singbox_start(config)` in the `SINGBOX_ENABLED`
configuration. If a core is held, `singbox_stop()` first. Then (inside the
`try`) evaluate `SingBoxConfig(config, self.connection.peer)` — the
`self.connection.peer` attribute read happens before `json.loads` —
construct a fresh `SingBoxCore`, assign it to the slot, and `start` it.
Registration of the remote peer's `on_singbox_start`/`on_singbox_stop`
callbacks as hooks is remote-object plumbing with no effect on the
modelled state. Any exception is re-raised after logging. -/
def singbox_start (allow : List String) (svc : SvcState) (raw : RawConfig) :
    SvcState × List SvcEv × Option Err :=
  let stoppedPair :=
    match svc.singbox_core with
    | some _ => singbox_stop svc
    | none => (svc, [])
  let svc1 := stoppedPair.1
  let evs1 := stoppedPair.2
  match connPeer svc1 with
  | .error e => (svc1, evs1, some e)
  | .ok peer =>
      match SingBoxConfig.init allow raw peer with
      | .error e => (svc1, evs1, some e)
      | .ok cfg =>
          let c0 := SingBoxCore.init
          let svc2 := { svc1 with singbox_core := some c0 }
          let started := SingBoxCore.start c0 cfg
          ({ svc2 with singbox_core := some started.1 },
           evs1 ++ started.2.1.map .singbox, started.2.2)

/-- `XrayService.singbox_restart(config)` in the `SINGBOX_ENABLED`
configuration: evaluate `SingBoxConfig(config, self.connection.peer)`
(attribute read, then parse — both before any process mutation); with a
held core, delegate to `SingBoxCore.restart`; with no core the source
calls `singbox_start(config)` passing the already-parsed object, whose
re-parse `json.loads(config)` raises `TypeError` on the non-string
argument, leaving the state unchanged. -/
def singbox_restart (allow : List String) (svc : SvcState) (raw : RawConfig) :
    SvcState × List SvcEv × Option Err :=
  match connPeer svc with
  | .error e => (svc, [], some e)
  | .ok peer =>
      match SingBoxConfig.init allow raw peer with
      | .error e => (svc, [], some e)
      | .ok cfg =>
          match svc.singbox_core with
          | some c =>
              let r := SingBoxCore.restart c cfg
              ({ svc with singbox_core := some r.1 }, r.2.1.map .singbox, r.2.2)
          | none => (svc, [], some .typeError)

/-- `XrayService.fetch_singbox_logs(callback)`: with no core held the body
is skipped and the method returns `None`, registering nothing; with a core
held, the spawned `CoreLogsHandler.cast` enters `get_logs`, registering a
subscriber buffer whose handle the returned object owns. -/
def fetch_singbox_logs (svc : SvcState) : SvcState × Option Nat :=
  match svc.singbox_core with
  | some c =>
      let entered := get_logs_enter c
      ({ svc with singbox_core := some entered.1 }, some entered.2)
  | none => (svc, none)

/-- `XrayService.fetch_logs(callback)` on the Xray slot; the Xray core's
`get_logs` is, per the specification, the structurally identical
subscribe operation of the twin supervisor. -/
def fetch_logs (svc : SvcState) : SvcState × Option Nat :=
  match svc.core with
  | some c =>
      let entered := get_logs_enter c
      ({ svc with core := some entered.1 }, some entered.2)
  | none => (svc, none)

/-! Concrete fixtures used to instantiate theorems and exhibit
counterexamples. -/

/-- Inbound entry tagged `"a"`. -/
def ibA : Inbound := ⟨some "a", "A"⟩

/-- Inbound entry tagged `"b"`. -/
def ibB : Inbound := ⟨some "b", "B"⟩

/-- Inbound entry tagged `"c"`. -/
def ibC : Inbound := ⟨some "c", "C"⟩

/-- Inbound entry tagged `"d"`. -/
def ibD : Inbound := ⟨some "d", "D"⟩

/-- Inbound entry with no `tag` key. -/
def ibNoTag : Inbound := ⟨none, "N"⟩

/-- The spec's example document with inbounds `[a, b, c, d]`. -/
def docEx : ConfigDoc := ⟨some [ibA, ibB, ibC, ibD], some "info", "route"⟩

/-- A document whose inbounds mix a tagged and an untagged entry. -/
def docMixed : ConfigDoc := ⟨some [ibA, ibNoTag], some "info", "route"⟩

/-- A document with no `inbounds` key at all. -/
def docNoInbounds : ConfigDoc := ⟨none, none, "route"⟩

/-- A concrete parsed-and-stamped configuration. -/
def cfgEx : SingBoxConfig := ⟨docEx, SSL_CERT_FILE, SSL_KEY_FILE, "10.0.0.1"⟩

/-- A freshly constructed supervisor that has just launched `cfg`. -/
def freshStartedCore (cfg : SingBoxConfig) : CoreState :=
  { SingBoxCore.init with process := some ⟨cfg, false⟩ }

/-- A supervisor whose subprocess is running. -/
def coreRunning : CoreState := freshStartedCore cfgEx

/-- A live admitted controller connection. -/
def connEx : Conn := ⟨0, "10.0.0.1", true, some "10.0.0.1", false⟩

/-- A second, candidate controller connection. -/
def candEx : Conn := ⟨1, "10.0.0.2", true, none, false⟩

/-- The live connection with a failing liveness probe. -/
def connDead : Conn := { connEx with alive := false }

/-- A service holding only a dead connection. -/
def svcDead : SvcState := ⟨none, none, some connDead⟩

/-- A service holding a running Sing-box core and the live connection. -/
def svcRunning : SvcState := ⟨none, some coreRunning, some connEx⟩

/-- A service holding running cores in both slots and the live connection. -/
def svcBoth : SvcState := ⟨some coreRunning, some coreRunning, some connEx⟩

/-! Helper lemmas about the bounded deque and the subscriber registry. -/

/-- A bounded append keeps the buffer within capacity. -/
theorem dequeAppend_length_le (cap : Nat) (hc : 0 < cap) (buf : List String) (x : String)
    (h : buf.length ≤ cap) : (dequeAppend cap buf x).length ≤ cap := by
  unfold dequeAppend
  by_cases hl : buf.length < cap
  · simp [hl]
    omega
  · simp [hl]
    cases buf with
    | nil => simp at hl; omega
    | cons a t => simp at h hl ⊢; omega

/-- Folding bounded appends over a buffer within capacity keeps the most
recent `cap` elements of the concatenation, in order. -/
theorem foldl_dequeAppend (cap : Nat) (hc : 0 < cap) (xs : List String) :
    ∀ b : List String, b.length ≤ cap →
      xs.foldl (dequeAppend cap) b = (b ++ xs).drop ((b ++ xs).length - cap) := by
  induction xs with
  | nil =>
      intro b hb
      have h0 : b.length - cap = 0 := by omega
      simp [h0]
  | cons x xs ih =>
      intro b hb
      rw [List.foldl_cons]
      by_cases hl : b.length < cap
      · have hd : dequeAppend cap b x = b ++ [x] := by simp [dequeAppend, hl]
        rw [hd, ih (b ++ [x]) (by simp; omega)]
        simp
      · have hbc : b.length = cap := by omega
        have hd : dequeAppend cap b x = b.tail ++ [x] := by simp [dequeAppend, hl]
        cases b with
        | nil => simp at hbc; omega
        | cons a t =>
            rw [hd]
            simp only [List.tail_cons]
            rw [ih (t ++ [x]) (by simp at hbc ⊢; omega)]
            have hbc' : t.length + 1 = cap := by simpa using hbc
            have e1 : (t ++ [x]) ++ xs = t ++ x :: xs := by simp
            have e2 : a :: t ++ x :: xs = a :: (t ++ x :: xs) := rfl
            rw [e1, e2]
            have h1 : (t ++ x :: xs).length - cap = xs.length := by simp; omega
            have h2 : (a :: (t ++ x :: xs)).length - cap = xs.length + 1 := by
              simp; omega
            rw [h1, h2, List.drop_succ_cons]

/-- Rewriting every value of an association list commutes with lookup. -/
theorem lookup_map_val (f : List String → List String) (k : Nat) :
    ∀ l : List (Nat × List String),
      (l.map fun p => (p.1, f p.2)).lookup k = (l.lookup k).map f := by
  intro l
  induction l with
  | nil => rfl
  | cons p t ih =>
      simp only [List.map_cons, List.lookup]
      by_cases h : k = p.1
      · simp [h]
      · have hb : (k == p.1) = false := by simp [h]
        simp [hb, ih]

/-- Rewriting only the entry keyed `j` leaves lookups of other keys
unchanged. -/
theorem lookup_pop_other (j k : Nat) (hk : k ≠ j) :
    ∀ l : List (Nat × List String),
      (l.map fun p => if p.1 = j then (p.1, p.2.tail) else p).lookup k = l.lookup k := by
  intro l
  induction l with
  | nil => rfl
  | cons p t ih =>
      simp only [List.map_cons]
      by_cases hj : p.1 = j
      · simp only [hj, if_pos rfl]
        simp only [List.lookup]
        have : (k == j) = false := by simp [hk]
        simp [hj, this, ih]
      · simp only [if_neg hj]
        simp only [List.lookup]
        by_cases h : k = p.1
        · simp [h]
        · simp [h, ih]

/-- The ring buffer after a run of captured lines is the fold of bounded
appends over the starting ring. -/
theorem foldl_appendLine_logs (lines : List String) :
    ∀ s : CoreState, (lines.foldl appendLine s).logs_buffer
      = lines.foldl (dequeAppend 100) s.logs_buffer := by
  induction lines with
  | nil => intro s; rfl
  | cons x xs ih => intro s; rw [List.foldl_cons, List.foldl_cons, ih]; rfl

/-- A registered subscriber buffer after a run of captured lines is the
fold of bounded appends over its starting contents. -/
theorem foldl_appendLine_lookup (lines : List String) :
    ∀ (s : CoreState) (k : Nat) (buf : List String),
      s.temp_log_buffers.lookup k = some buf →
      (lines.foldl appendLine s).temp_log_buffers.lookup k
        = some (lines.foldl (dequeAppend 100) buf) := by
  induction lines with
  | nil => intro s k buf h; simpa using h
  | cons x xs ih =>
      intro s k buf h
      rw [List.foldl_cons, List.foldl_cons]
      apply ih
      show ((appendLine s x).temp_log_buffers).lookup k = some (dequeAppend 100 buf x)
      have hmap : (appendLine s x).temp_log_buffers
          = s.temp_log_buffers.map fun p => (p.1, dequeAppend 100 p.2 x) := rfl
      have h2 := lookup_map_val (fun b => dequeAppend 100 b x) k s.temp_log_buffers
      rw [hmap, h2, h]
      rfl

/-- The append-to-accumulator loop of `_apply_filters` computes an ordinary
order-preserving filter. -/
theorem filterInbounds_eq_filter (allow : List String) (l : List Inbound) :
    filterInbounds allow l = l.filter fun ib => tagAllowed allow ib.tag := by
  suffices h : ∀ acc : List Inbound,
      l.foldl (fun acc ib => if tagAllowed allow ib.tag then acc ++ [ib] else acc) acc
        = acc ++ l.filter fun ib => tagAllowed allow ib.tag by
    simpa [filterInbounds] using h []
  induction l with
  | nil => intro acc; simp
  | cons ib t ih =>
      intro acc
      rw [List.foldl_cons]
      by_cases hi : tagAllowed allow ib.tag
      · simp [hi, ih, List.filter_cons]
      · simp [hi, ih, List.filter_cons]

/-! The claims. -/

/-- Claim C4: after appending N > 100 lines to a fresh supervisor's ring
buffer, the ring holds exactly the last 100 appended lines in insertion
order; moreover at capacity each insert evicts the oldest line. -/
theorem C4_ring_capacity (lines : List String) (_h : 100 < lines.length) :
    (lines.foldl appendLine SingBoxCore.init).logs_buffer
        = lines.drop (lines.length - 100)
    ∧ ∀ (buf : List String) (x : String), buf.length = 100 →
        dequeAppend 100 buf x = buf.tail ++ [x] := by
  constructor
  · rw [foldl_appendLine_logs]
    have h2 := foldl_dequeAppend 100 (by norm_num) lines [] (by simp)
    simpa [SingBoxCore.init] using h2
  · intro buf x hb
    simp [dequeAppend, hb]

/-- Witness for C4 at a concrete run of 101 lines. -/
theorem C4_ring_capacity_witness :
    100 < (List.replicate 101 "x").length
    ∧ ((List.replicate 101 "x").foldl appendLine SingBoxCore.init).logs_buffer
        = (List.replicate 101 "x").drop ((List.replicate 101 "x").length - 100)
    ∧ ∀ (buf : List String) (x : String), buf.length = 100 →
        dequeAppend 100 buf x = buf.tail ++ [x] :=
  ⟨by decide,
   (C4_ring_capacity (List.replicate 101 "x") (by decide)).1,
   (C4_ring_capacity (List.replicate 101 "x") (by decide)).2⟩

/-- Claim C5: with a non-empty allow-list the transformed document's
inbounds are exactly the input entries whose tag is in the allow-list, in
their original relative order; with an empty (absent) allow-list the
transform leaves the document unchanged. -/
theorem C5_filter_allowlist (allow : List String) (d : ConfigDoc) :
    (allow ≠ [] → (applyFilters allow d).inbounds
        = some ((d.inbounds.getD []).filter fun ib => tagAllowed allow ib.tag))
    ∧ (allow = [] → applyFilters allow d = d) := by
  constructor
  · intro h
    have he : allow.isEmpty = false := by
      cases allow with
      | nil => simp at h
      | cons a t => rfl
    simp [applyFilters, he, filterInbounds_eq_filter]
  · intro h
    simp [applyFilters, h]

/-- Witness for C5 at the spec's own example: allow-list containing a and c,
input inbounds a, b, c, d, output exactly a then c; and the empty
allow-list leaves the document untouched. -/
theorem C5_filter_allowlist_witness :
    (["a", "c"] : List String) ≠ []
    ∧ (applyFilters ["a", "c"] docEx).inbounds = some [ibA, ibC]
    ∧ applyFilters [] docEx = docEx :=
  ⟨by decide,
   by
     have h := (C5_filter_allowlist ["a", "c"] docEx).1 (by decide)
     rw [h]; decide,
   (C5_filter_allowlist [] docEx).2 rfl⟩

/-- Claim C9: with a non-empty allow-list the transform always writes the
`inbounds` key (the result has one), a document lacking the key ends up
with an empty inbounds list, and every surviving entry carries a tag. -/
theorem C9_filter_writes_inbounds (allow : List String) (d : ConfigDoc)
    (h : allow ≠ []) :
    ((applyFilters allow d).inbounds).isSome = true
    ∧ (d.inbounds = none → (applyFilters allow d).inbounds = some [])
    ∧ ∀ l, (applyFilters allow d).inbounds = some l →
        ∀ ib ∈ l, ib.tag.isSome = true := by
  have he : allow.isEmpty = false := by
    cases allow with
    | nil => simp at h
    | cons a t => rfl
  refine ⟨by simp [applyFilters, he], ?_, ?_⟩
  · intro hd
    simp [applyFilters, he, hd, filterInbounds]
  · intro l hl ib hib
    simp only [applyFilters, he, Bool.false_eq_true, if_false,
      Option.some.injEq] at hl
    rw [filterInbounds_eq_filter] at hl
    subst hl
    have := List.of_mem_filter hib
    cases htag : ib.tag with
    | none => rw [htag] at this; simp [tagAllowed] at this
    | some t => rfl

/-- Witness for C9: a document with no `inbounds` key gets an empty list,
and in a mixed document the untagged entry is dropped so every survivor
has a tag. -/
theorem C9_filter_writes_inbounds_witness :
    (["a", "c"] : List String) ≠ []
    ∧ (applyFilters ["a", "c"] docNoInbounds).inbounds = some []
    ∧ (applyFilters ["a", "c"] docMixed).inbounds = some [ibA]
    ∧ ∀ ib ∈ [ibA], ib.tag.isSome = true :=
  ⟨by decide,
   (C9_filter_writes_inbounds ["a", "c"] docNoInbounds (by decide)).2.1 rfl,
   by decide,
   fun ib hib =>
     (C9_filter_writes_inbounds ["a", "c"] docMixed (by decide)).2.2 [ibA]
       (by decide) ib hib⟩

/-- Claim C10: fetching logs (for either core type) while no core is held
returns an absent value rather than raising, leaves the service state
untouched and registers no subscriber. -/
theorem C10_fetch_logs_no_core (svc : SvcState) :
    (svc.core = none → fetch_logs svc = (svc, none))
    ∧ (svc.singbox_core = none → fetch_singbox_logs svc = (svc, none)) := by
  constructor
  · intro h
    simp [fetch_logs, h]
  · intro h
    simp [fetch_singbox_logs, h]

/-- Witness for C10 at the freshly constructed service. -/
theorem C10_fetch_logs_no_core_witness :
    XrayService.init.core = none
    ∧ XrayService.init.singbox_core = none
    ∧ fetch_logs XrayService.init = (XrayService.init, none)
    ∧ fetch_singbox_logs XrayService.init = (XrayService.init, none) :=
  ⟨rfl, rfl,
   (C10_fetch_logs_no_core XrayService.init).1 rfl,
   (C10_fetch_logs_no_core XrayService.init).2 rfl⟩

/-- Claim C3, counterexample: the subscriber's private buffer is a
`deque(maxlen=100)` too, so after subscribing to a fresh core and letting
101 lines arrive unconsumed, the subscriber's view is not the claimed
snapshot-plus-every-subsequent-line (it has lost the oldest line). -/
theorem C3_counterexample :
    (((List.replicate 101 "x").foldl appendLine
          (get_logs_enter SingBoxCore.init).1).temp_log_buffers).lookup
        (get_logs_enter SingBoxCore.init).2
      ≠ some (SingBoxCore.init.logs_buffer ++ List.replicate 101 "x") := by
  set_option maxRecDepth 8000 in decide

/-- Claim C3 as amended: a subscriber's view equals the most recent 100
lines of (snapshot-at-subscribe ++ lines appended thereafter), in append
order with no gaps or duplicates among the retained lines — the capacity
bound of the subscriber's own deque is the only deviation from the claim —
and consuming from a different subscriber's buffer leaves this view
unchanged. -/
theorem C3_subscriber_view (s : CoreState) (lines : List String) (j : Nat)
    (hlen : s.logs_buffer.length ≤ 100) (hj : j ≠ s.nextBufId) :
    (((lines.foldl appendLine (get_logs_enter s).1).temp_log_buffers).lookup s.nextBufId
        = some ((s.logs_buffer ++ lines).drop ((s.logs_buffer ++ lines).length - 100)))
    ∧ ((popBuf (lines.foldl appendLine (get_logs_enter s).1) j).temp_log_buffers).lookup
          s.nextBufId
        = (((lines.foldl appendLine (get_logs_enter s).1).temp_log_buffers).lookup
            s.nextBufId) := by
  have hstart : (((get_logs_enter s).1).temp_log_buffers).lookup s.nextBufId
      = some s.logs_buffer := by
    simp [get_logs_enter, List.lookup]
  have hmain := foldl_appendLine_lookup lines (get_logs_enter s).1 s.nextBufId
      s.logs_buffer hstart
  constructor
  · rw [hmain, foldl_dequeAppend 100 (by norm_num) lines s.logs_buffer hlen]
  · have hpop := lookup_pop_other j s.nextBufId (Ne.symm hj)
      ((lines.foldl appendLine (get_logs_enter s).1).temp_log_buffers)
    exact hpop

/-- Witness for C3 as amended: a fresh core, two appended lines, and an
unrelated subscriber handle. -/
theorem C3_subscriber_view_witness :
    SingBoxCore.init.logs_buffer.length ≤ 100
    ∧ (5 : Nat) ≠ SingBoxCore.init.nextBufId
    ∧ ((((["l1", "l2"] : List String).foldl appendLine
            (get_logs_enter SingBoxCore.init).1).temp_log_buffers).lookup
          SingBoxCore.init.nextBufId
        = some ((SingBoxCore.init.logs_buffer ++ ["l1", "l2"]).drop
            ((SingBoxCore.init.logs_buffer ++ ["l1", "l2"]).length - 100)))
    ∧ ((popBuf ((["l1", "l2"] : List String).foldl appendLine
            (get_logs_enter SingBoxCore.init).1) 5).temp_log_buffers).lookup
          SingBoxCore.init.nextBufId
        = ((((["l1", "l2"] : List String).foldl appendLine
            (get_logs_enter SingBoxCore.init).1).temp_log_buffers).lookup
          SingBoxCore.init.nextBufId) :=
  ⟨by decide, by decide,
   (C3_subscriber_view SingBoxCore.init ["l1", "l2"] 5 (by decide) (by decide)).1,
   (C3_subscriber_view SingBoxCore.init ["l1", "l2"] 5 (by decide) (by decide)).2⟩

/-- Claim C8: a restart while the `Restarting` guard is set is a no-op;
otherwise the call clears the guard on return, never fails, performs the
stop (when a process was running) followed by the launch of the normalized
configuration, and leaves that process running. -/
theorem C8_restart_guard (s : CoreState) (cfg : SingBoxConfig) :
    (s.restarting = true → SingBoxCore.restart s cfg = (s, [], none))
    ∧ (s.restarting = false →
        (SingBoxCore.restart s cfg).1.restarting = false
        ∧ (SingBoxCore.restart s cfg).2.2 = none
        ∧ (SingBoxCore.restart s cfg).2.1
            = (if s.started then [Ev.terminated] else [])
              ++ [Ev.launched (normalizeLogLevel cfg)]
        ∧ (SingBoxCore.restart s cfg).1.process
            = some ⟨normalizeLogLevel cfg, false⟩) := by
  constructor
  · intro h
    simp [SingBoxCore.restart, h]
  · intro h
    rcases hp : s.process with _ | ⟨pc, pe⟩
    · refine ⟨?_, ?_, ?_, ?_⟩ <;>
        simp [SingBoxCore.restart, SingBoxCore.stop, SingBoxCore.start,
          CoreState.started, normalizeLogLevel, h, hp]
    · cases pe <;>
        · refine ⟨?_, ?_, ?_, ?_⟩ <;>
            simp [SingBoxCore.restart, SingBoxCore.stop, SingBoxCore.start,
              CoreState.started, normalizeLogLevel, h, hp]

/-- Witness for C8: the no-op branch on a guarded state and the full
stop-then-start cycle on a running, unguarded state. -/
theorem C8_restart_guard_witness :
    ({ coreRunning with restarting := true } : CoreState).restarting = true
    ∧ SingBoxCore.restart { coreRunning with restarting := true } cfgEx
        = ({ coreRunning with restarting := true }, [], none)
    ∧ coreRunning.restarting = false
    ∧ (SingBoxCore.restart coreRunning cfgEx).2.1
        = (if coreRunning.started then [Ev.terminated] else [])
          ++ [Ev.launched (normalizeLogLevel cfgEx)]
    ∧ (SingBoxCore.restart coreRunning cfgEx).1.restarting = false :=
  ⟨rfl,
   (C8_restart_guard { coreRunning with restarting := true } cfgEx).1 rfl,
   rfl,
   ((C8_restart_guard coreRunning cfgEx).2 rfl).2.2.1,
   ((C8_restart_guard coreRunning cfgEx).2 rfl).1⟩

/-- Claim C1: the exposed start operation called with raw configuration
while the supervisor's subprocess is Running first stops that subprocess,
then launches the new one with the transformed (parsed, stamped, filtered,
silent-level-normalized) configuration, and does not fail. At the inner
`SingBoxCore.start` layer a started core raises; the service-level start
performs the implicit stop first, so the exposed operation behaves as
claimed. -/
theorem C1_start_stops_then_launches (allow : List String) (svc : SvcState)
    (core : CoreState) (conn : Conn) (p : String) (d : ConfigDoc)
    (hcore : svc.singbox_core = some core) (hrun : core.started = true)
    (hconn : svc.connection = some conn) (hpeer : conn.peer = some p) :
    singbox_start allow svc (.wellFormed d)
      = ({ svc with singbox_core := some (freshStartedCore (normalizeLogLevel
            ⟨applyFilters allow d, SSL_CERT_FILE, SSL_KEY_FILE, p⟩)) },
         [SvcEv.singbox .terminated,
          SvcEv.singbox (.launched (normalizeLogLevel
            ⟨applyFilters allow d, SSL_CERT_FILE, SSL_KEY_FILE, p⟩))],
         none) := by
  have hinit : SingBoxCore.init.started = false := rfl
  simp [singbox_start, singbox_stop, hcore, SingBoxCore.stop, hrun,
    connPeer, hconn, hpeer, SingBoxConfig.init, json_loads,
    SingBoxCore.start, hinit, normalizeLogLevel, freshStartedCore]

/-- Witness for C1: a service with a running Sing-box core and a live
connection, restarted onto the spec's example document. -/
theorem C1_start_stops_then_launches_witness :
    svcRunning.singbox_core = some coreRunning
    ∧ coreRunning.started = true
    ∧ svcRunning.connection = some connEx
    ∧ connEx.peer = some "10.0.0.1"
    ∧ singbox_start ["a", "c"] svcRunning (.wellFormed docEx)
      = ({ svcRunning with singbox_core := some (freshStartedCore (normalizeLogLevel
            ⟨applyFilters ["a", "c"] docEx, SSL_CERT_FILE, SSL_KEY_FILE,
             "10.0.0.1"⟩)) },
         [SvcEv.singbox .terminated,
          SvcEv.singbox (.launched (normalizeLogLevel
            ⟨applyFilters ["a", "c"] docEx, SSL_CERT_FILE, SSL_KEY_FILE,
             "10.0.0.1"⟩))],
         none) :=
  ⟨rfl, rfl, rfl, rfl,
   C1_start_stops_then_launches ["a", "c"] svcRunning coreRunning connEx
     "10.0.0.1" docEx rfl rfl rfl rfl⟩

/-- Claim C2, counterexample: a start with unparseable bytes on a service
whose Sing-box subprocess is running fails with the decode error, but only
after the running core has been stopped and its slot cleared — the
subprocess is not still running and the state is not unchanged. -/
theorem C2_counterexample :
    coreRunning.started = true
    ∧ svcRunning.singbox_core = some coreRunning
    ∧ (singbox_start ["a", "c"] svcRunning (.malformed "not json")).2.2
        = some .configInvalid
    ∧ (singbox_start ["a", "c"] svcRunning (.malformed "not json")).1.singbox_core
        = none
    ∧ (singbox_start ["a", "c"] svcRunning (.malformed "not json")).2.1
        = [SvcEv.singbox .terminated] := by
  refine ⟨rfl, rfl, rfl, rfl, rfl⟩

/-- Claim C2 as amended: a restart whose raw bytes are unparseable fails
with the decode error before any process mutation — the state is unchanged
and no process event occurs; a start whose raw bytes are unparseable also
fails with the decode error and launches nothing, but it stops and clears
a previously held core before parsing, so its slot is empty afterwards. -/
theorem C2_parse_failure_aborts (allow : List String) (svc : SvcState)
    (conn : Conn) (p m : String)
    (hconn : svc.connection = some conn) (hpeer : conn.peer = some p) :
    singbox_restart allow svc (.malformed m) = (svc, [], some .configInvalid)
    ∧ (singbox_start allow svc (.malformed m)).2.2 = some .configInvalid
    ∧ (singbox_start allow svc (.malformed m)).1.singbox_core = none
    ∧ ∀ cfg, SvcEv.singbox (.launched cfg)
        ∉ (singbox_start allow svc (.malformed m)).2.1 := by
  refine ⟨?_, ?_, ?_, ?_⟩
  · simp [singbox_restart, connPeer, hconn, hpeer, SingBoxConfig.init, json_loads]
  all_goals
    rcases hsc : svc.singbox_core with _ | core
  · simp [singbox_start, hsc, connPeer, hconn, hpeer, SingBoxConfig.init, json_loads]
  · simp [singbox_start, hsc, singbox_stop, connPeer, hconn, hpeer,
      SingBoxConfig.init, json_loads]
  · simp [singbox_start, hsc, connPeer, hconn, hpeer, SingBoxConfig.init,
      json_loads, hsc]
  · simp [singbox_start, hsc, singbox_stop, connPeer, hconn, hpeer,
      SingBoxConfig.init, json_loads]
  · intro cfg
    simp [singbox_start, hsc, connPeer, hconn, hpeer, SingBoxConfig.init, json_loads]
  · intro cfg
    simp [singbox_start, hsc, singbox_stop, connPeer, hconn, hpeer,
      SingBoxConfig.init, json_loads, SingBoxCore.stop]
    by_cases hb : core.started = true <;> simp [hb]

/-- Witness for C2 as amended, on the running service. -/
theorem C2_parse_failure_aborts_witness :
    svcRunning.connection = some connEx
    ∧ connEx.peer = some "10.0.0.1"
    ∧ singbox_restart ["a", "c"] svcRunning (.malformed "not json")
        = (svcRunning, [], some .configInvalid)
    ∧ (singbox_start ["a", "c"] svcRunning (.malformed "not json")).1.singbox_core
        = none :=
  ⟨rfl, rfl,
   (C2_parse_failure_aborts ["a", "c"] svcRunning connEx "10.0.0.1" "not json"
     rfl rfl).1,
   (C2_parse_failure_aborts ["a", "c"] svcRunning connEx "10.0.0.1" "not json"
     rfl rfl).2.2.1⟩

/-- Claim C6: with a session already held, a connecting candidate is
rejected (its transport closed, the held session and its peer untouched)
when the held session's liveness probe succeeds and it has a recorded peer
identity; when the probe fails or no peer identity was recorded, the
candidate is admitted as the active session with its peer identity
recorded. The state holds at most one connection at any time by
construction. -/
theorem C6_single_session (svc : SvcState) (cand ex : Conn)
    (h : svc.connection = some ex) :
    (ex.alive = true → ex.peer.isSome = true →
        on_connect svc cand = (svc, { cand with closed := true }))
    ∧ ((ex.alive = false ∨ ex.peer = none) →
        on_connect svc cand
          = ({ svc with connection := some { cand with peer := some cand.addr } },
             { cand with peer := some cand.addr })) := by
  constructor
  · intro ha hp
    rcases hq : ex.peer with _ | q
    · rw [hq] at hp; simp at hp
    · simp [on_connect, h, ha, hq]
  · rintro (ha | hp)
    · simp [on_connect, h, ha]
    · rcases hb : ex.alive <;> simp [on_connect, h, hb, hp]

/-- Witness for C6: the live recorded session rejects the candidate; a
session that fails its probe is displaced by the candidate. -/
theorem C6_single_session_witness :
    svcRunning.connection = some connEx
    ∧ connEx.alive = true
    ∧ connEx.peer.isSome = true
    ∧ on_connect svcRunning candEx = (svcRunning, { candEx with closed := true })
    ∧ svcDead.connection = some connDead
    ∧ on_connect svcDead candEx
        = ({ svcDead with connection := some { candEx with peer := some candEx.addr } },
           { candEx with peer := some candEx.addr }) :=
  ⟨rfl, rfl, rfl,
   (C6_single_session svcRunning candEx connEx rfl).1 rfl rfl,
   rfl,
   (C6_single_session svcDead candEx connDead rfl).2 (Or.inl rfl)⟩

/-- Claim C7: a disconnect callback for the currently active session stops
every held core supervisor — a termination is observed for each slot whose
subprocess was running — and clears both core slots and the session; a
disconnect callback for a connection other than the active one does
nothing. -/
theorem C7_disconnect_teardown (svc : SvcState) (conn active : Conn)
    (h : svc.connection = some active) :
    (conn.cid = active.cid →
        (on_disconnect svc conn).1 = ⟨none, none, none⟩
        ∧ (∀ c, svc.core = some c → c.started = true →
            SvcEv.xray .terminated ∈ (on_disconnect svc conn).2)
        ∧ (∀ c, svc.singbox_core = some c → c.started = true →
            SvcEv.singbox .terminated ∈ (on_disconnect svc conn).2))
    ∧ (conn.cid ≠ active.cid → on_disconnect svc conn = (svc, [])) := by
  constructor
  · intro hcid
    refine ⟨?_, ?_, ?_⟩
    · simp [on_disconnect, h, hcid]
    · intro c hc hcs
      simp [on_disconnect, h, hcid, hc, SingBoxCore.stop, hcs]
    · intro c hc hcs
      simp [on_disconnect, h, hcid, hc, SingBoxCore.stop, hcs]
  · intro hcid
    simp [on_disconnect, h, hcid]

/-- Witness for C7: disconnecting the active session of a service running
cores in both slots tears everything down; a stale connection's disconnect
is ignored. -/
theorem C7_disconnect_teardown_witness :
    svcBoth.connection = some connEx
    ∧ connEx.cid = connEx.cid
    ∧ (on_disconnect svcBoth connEx).1 = ⟨none, none, none⟩
    ∧ SvcEv.xray .terminated ∈ (on_disconnect svcBoth connEx).2
    ∧ SvcEv.singbox .terminated ∈ (on_disconnect svcBoth connEx).2
    ∧ candEx.cid ≠ connEx.cid
    ∧ on_disconnect svcBoth candEx = (svcBoth, []) :=
  ⟨rfl, rfl,
   ((C7_disconnect_teardown svcBoth connEx connEx rfl).1 rfl).1,
   ((C7_disconnect_teardown svcBoth connEx connEx rfl).1 rfl).2.1 coreRunning rfl rfl,
   ((C7_disconnect_teardown svcBoth connEx connEx rfl).1 rfl).2.2 coreRunning rfl rfl,
   by decide,
   (C7_disconnect_teardown svcBoth candEx connEx rfl).2 (by decide)⟩

end MarzbanNode
